import Mathlib

/-!
Verification of the chittychattychat room-lifecycle and messaging core.

This file shallowly embeds the Python sources (`src/chitty/...`) into Lean:

* bytes are `List Nat`;
* the database is an explicit record of row lists (`DBState`);
* the in-memory connection registry is an association-list state (`ConnState`);
* the AEAD primitive (library `AESGCM`, external to the repository) is a
  bundled structure `AEAD` carrying the library's contract (seal length,
  seal/open round trip);
* fallible operations return `Option`/`Except`, and injected storage failures
  are boolean oracle parameters (a `false` oracle models the corresponding
  SQL statement raising, which in `Database.execute` rolls the transaction
  back and leaves the database unchanged).

Each route/socket handler is translated line by line from the source.
-/

/-- Room lifecycle status, `rooms.status` in the schema. -/
inductive Status where
  | pending
  | active
  | locked
  | closed
  | archived
deriving DecidableEq, Repr

/-- Participant role. -/
inductive Role where
  | host
  | guest
deriving DecidableEq, Repr

/-- A row of the `rooms` table (timestamps as `Nat` seconds, `NULL` as `none`). -/
structure RoomRow where
  room_id : String
  status : Status
  created_at : Nat
  accepted_at : Option Nat
  expires_at : Option Nat
  closed_at : Option Nat
  archive_key : Option String
deriving DecidableEq, Repr

/-- A row of the `participants` table. -/
structure ParticipantRow where
  id : Nat
  room_id : String
  role : Role
  device_id : String
  display_name : Option String
  ip_address : Option String
  joined_at : Nat
deriving DecidableEq, Repr

/-- A row of the `messages` table; `body_ct`, `nonce`, `tag` are byte lists. -/
structure MessageRow where
  id : Nat
  room_id : String
  participant_id : Nat
  created_at : Nat
  body_ct : List Nat
  nonce : List Nat
  tag : List Nat
  msg_type : String
  ip_address : Option String
deriving DecidableEq, Repr

/-- The durable database state: rooms, participants, wrapped room keys
(`room_keys(room_id, room_key_enc)`), messages. -/
structure DBState where
  rooms : List RoomRow
  participants : List ParticipantRow
  room_keys : List (String × List Nat)
  messages : List MessageRow
deriving DecidableEq, Repr

/-- The AEAD primitive used by `CryptoService` (the `cryptography` library's
`AESGCM`, which is outside this repository). `enc key nonce pt` returns
ciphertext-with-tag; `dec key nonce sealed` authenticates and opens. The two
proof fields are the library's documented contract: the sealed output is the
plaintext length plus a 16-byte tag, and opening a sealed value under the same
key and nonce returns the plaintext. -/
structure AEAD where
  enc : List Nat → List Nat → List Nat → List Nat
  dec : List Nat → List Nat → List Nat → Option (List Nat)
  enc_length : ∀ k n p, (enc k n p).length = p.length + 16
  dec_enc : ∀ k n p, dec k n (enc k n p) = some p

/-- `CryptoService.encrypt_room_key`: a fresh 12-byte nonce is drawn and the
wrapped blob is `nonce ++ seal(master, nonce, room_key)` (nonce prepended). -/
def encrypt_room_key (A : AEAD) (master nonce room_key : List Nat) : List Nat :=
  nonce ++ A.enc master nonce room_key

/-- `CryptoService.decrypt_room_key`: the first 12 bytes are the nonce, the
rest is the sealed key; `none` models the Python exception on open failure. -/
def decrypt_room_key (A : AEAD) (master blob : List Nat) : Option (List Nat) :=
  A.dec master (blob.take 12) (blob.drop 12)

/-- `CryptoService.encrypt_message`: seal the plaintext, then split the sealed
output into `actual_ciphertext = ciphertext[:-16]` and `tag = ciphertext[-16:]`;
returns `(ct, nonce, tag)`. -/
def encrypt_message (A : AEAD) (room_key nonce pt : List Nat) :
    List Nat × List Nat × List Nat :=
  let s := A.enc room_key nonce pt
  (s.take (s.length - 16), nonce, s.drop (s.length - 16))

/-- `CryptoService.decrypt_message`: reassemble `full_ciphertext = ct + tag`
and open; `none` models the Python exception on failure. -/
def decrypt_message (A : AEAD) (room_key ct nonce tag : List Nat) :
    Option (List Nat) :=
  A.dec room_key nonce (ct ++ tag)

/-- A concrete instance of the AEAD contract, used to evaluate the handlers on
explicit inputs: seal appends a 16-byte tag, open strips it. -/
def testAEAD : AEAD where
  enc := fun _ _ p => p ++ List.replicate 16 0
  dec := fun _ _ c => if 16 ≤ c.length then some (c.take (c.length - 16)) else none
  enc_length := by
    intro k n p
    simp
  dec_enc := by
    intro k n p
    simp

/-- C3: for every 32-byte room key and plaintext (as UTF-8 bytes),
`decrypt_message` inverts `encrypt_message`, and the sealed AEAD output is
exactly `ct ++ tag` with the tag its final 16 bytes. -/
theorem message_encrypt_decrypt_roundtrip (A : AEAD) (key nonce pt : List Nat)
    (hkey : key.length = 32) :
    decrypt_message A key (encrypt_message A key nonce pt).1 nonce
        (encrypt_message A key nonce pt).2.2 = some pt ∧
    (encrypt_message A key nonce pt).1 ++ (encrypt_message A key nonce pt).2.2 =
        A.enc key nonce pt ∧
    (encrypt_message A key nonce pt).2.2.length = 16 := by
  have hjoin : (A.enc key nonce pt).take ((A.enc key nonce pt).length - 16) ++
      (A.enc key nonce pt).drop ((A.enc key nonce pt).length - 16) =
      A.enc key nonce pt := List.take_append_drop _ _
  refine ⟨?_, ?_, ?_⟩
  · simp only [decrypt_message, encrypt_message, hjoin]
    exact A.dec_enc key nonce pt
  · simpa [encrypt_message] using hjoin
  · simp [encrypt_message, A.enc_length]

/-- Witness for C3 at a concrete key, nonce and plaintext. -/
theorem message_encrypt_decrypt_roundtrip_witness :
    decrypt_message testAEAD (List.replicate 32 0)
        (encrypt_message testAEAD (List.replicate 32 0) (List.replicate 12 1)
          [104, 105]).1
        (List.replicate 12 1)
        (encrypt_message testAEAD (List.replicate 32 0) (List.replicate 12 1)
          [104, 105]).2.2 = some [104, 105] :=
  (message_encrypt_decrypt_roundtrip testAEAD (List.replicate 32 0)
    (List.replicate 12 1) [104, 105] (by decide)).1

/-- C8: for every 32-byte key, `decrypt_room_key` inverts `encrypt_room_key`:
the wrapped blob is the 12-byte nonce followed by the AEAD seal, and
decryption splits the blob at byte 12. -/
theorem room_key_wrap_roundtrip (A : AEAD) (master k nonce : List Nat)
    (hk : k.length = 32) (hn : nonce.length = 12) :
    decrypt_room_key A master (encrypt_room_key A master nonce k) = some k := by
  have htake : (nonce ++ A.enc master nonce k).take 12 = nonce := by
    rw [← hn]
    exact List.take_left nonce (A.enc master nonce k)
  have hdrop : (nonce ++ A.enc master nonce k).drop 12 = A.enc master nonce k := by
    rw [← hn]
    exact List.drop_left nonce (A.enc master nonce k)
  simp only [decrypt_room_key, encrypt_room_key, htake, hdrop]
  exact A.dec_enc master nonce k

/-- Witness for C8 at a concrete master key, room key and nonce. -/
theorem room_key_wrap_roundtrip_witness :
    decrypt_room_key testAEAD (List.replicate 32 7)
        (encrypt_room_key testAEAD (List.replicate 32 7) (List.replicate 12 2)
          (List.replicate 32 9)) = some (List.replicate 32 9) :=
  room_key_wrap_roundtrip testAEAD (List.replicate 32 7) (List.replicate 32 9)
    (List.replicate 12 2) (by decide) (by decide)

/-!  ## Persistence layer (`models/rooms.py`, `models/participants.py`).

All mutations run through `Database.execute`/`execute_one`, each of which opens
its own connection, commits on success and rolls back on exception: every call
is its own transaction, and a failing call leaves the database unchanged.
-/

/-- A conditional `UPDATE rooms ... WHERE cond RETURNING room_id`: the boolean
is whether a row matched (the Python `result is not None`). -/
def roomUpdate (st : DBState) (cond : RoomRow → Bool) (f : RoomRow → RoomRow) :
    Bool × DBState :=
  (st.rooms.any cond,
   { st with rooms := st.rooms.map (fun r => if cond r then f r else r) })

/-- `Room.get_room`: `SELECT ... FROM rooms WHERE room_id = %s`. -/
def Room.get_room (st : DBState) (rid : String) : Option RoomRow :=
  st.rooms.find? (fun r => r.room_id == rid)

/-- `Room.accept_room`: conditional update `pending → active`, setting
`accepted_at = now` and `expires_at = now + 24h`. -/
def Room.accept_room (now : Nat) (st : DBState) (rid : String) : Bool × DBState :=
  roomUpdate st (fun r => r.room_id == rid && r.status == Status.pending)
    (fun r =>
      { r with
        status := Status.active
        accepted_at := some now
        expires_at := some (now + 24 * 3600) })

/-- `Room.lock_room`: conditional update `active → locked`. -/
def Room.lock_room (st : DBState) (rid : String) : Bool × DBState :=
  roomUpdate st (fun r => r.room_id == rid && r.status == Status.active)
    (fun r => { r with status := Status.locked })

/-- `Room.unlock_room`: conditional update `locked → active`. -/
def Room.unlock_room (st : DBState) (rid : String) : Bool × DBState :=
  roomUpdate st (fun r => r.room_id == rid && r.status == Status.locked)
    (fun r => { r with status := Status.active })

/-- `Room.close_room`: conditional update `{active, locked} → closed`,
setting `closed_at = now` (the `reason` argument is only logged). -/
def Room.close_room (now : Nat) (st : DBState) (rid : String) : Bool × DBState :=
  roomUpdate st (fun r => r.room_id == rid &&
      (r.status == Status.active || r.status == Status.locked))
    (fun r => { r with status := Status.closed, closed_at := some now })

/-- `Room.archive_room`: conditional update `closed → archived`, setting
`archive_key` (always called with a concrete string key). -/
def Room.archive_room (st : DBState) (rid : String) (key : String) :
    Bool × DBState :=
  roomUpdate st (fun r => r.room_id == rid && r.status == Status.closed)
    (fun r => { r with status := Status.archived, archive_key := some key })

/-- `Room.get_expired_rooms`: ids with `status ∈ {active, locked}` and
`expires_at < now`. -/
def Room.get_expired_rooms (now : Nat) (st : DBState) : List String :=
  (st.rooms.filter (fun r =>
    (r.status == Status.active || r.status == Status.locked) &&
    (match r.expires_at with
     | some e => decide (e < now)
     | none => false))).map (fun r => r.room_id)

/-- `Participant.create_participant`: `INSERT ... RETURNING`. The boolean
oracle `ok` models the insert raising (rolled back, handler returns `None`);
`newId` is the database-assigned serial id. -/
def Participant.create_participant (ok : Bool) (newId : Nat) (rid : String)
    (role : Role) (device ip : String) (now : Nat) (st : DBState) :
    Option ParticipantRow × DBState :=
  if ok then
    let row : ParticipantRow :=
      { id := newId, room_id := rid, role := role, device_id := device,
        display_name := none, ip_address := some ip, joined_at := now }
    (some row, { st with participants := st.participants ++ [row] })
  else (none, st)

/-- `Participant.get_participant_by_device`:
`SELECT ... WHERE room_id = %s AND device_id = %s`. -/
def Participant.get_participant_by_device (st : DBState) (rid device : String) :
    Option ParticipantRow :=
  st.participants.find? (fun p => p.room_id == rid && p.device_id == device)

/-- `Participant.get_participant`: `SELECT ... WHERE id = %s`. -/
def Participant.get_participant (st : DBState) (pid : Nat) :
    Option ParticipantRow :=
  st.participants.find? (fun p => p.id == pid)

/-- `Participant.count_participants`: `SELECT COUNT(*) WHERE room_id = %s`. -/
def Participant.count_participants (st : DBState) (rid : String) : Nat :=
  (st.participants.filter (fun p => p.room_id == rid)).length

/-- `Participant.remove_participant`: `DELETE FROM participants WHERE id = %s`. -/
def Participant.remove_participant (pid : Nat) (st : DBState) : DBState :=
  { st with participants := st.participants.filter (fun p => !(p.id == pid)) }

/-- `Participant.cleanup_inactive_participants`: with an empty keep list,
delete every participant of the room; otherwise delete those of the room whose
id is not in the keep list. -/
def Participant.cleanup_inactive_participants (rid : String) (keep : List Nat)
    (st : DBState) : DBState :=
  if keep.isEmpty then
    { st with participants := st.participants.filter (fun p => !(p.room_id == rid)) }
  else
    { st with
      participants :=
        st.participants.filter
          (fun p => !(p.room_id == rid && !(keep.contains p.id))) }

/-- `Participant.get_room_participants`:
`SELECT ... WHERE room_id = %s ORDER BY joined_at` (rows are kept in insertion
order, which the handlers rely on only as a set). -/
def Participant.get_room_participants (st : DBState) (rid : String) :
    List ParticipantRow :=
  st.participants.filter (fun p => p.room_id == rid)

/-- `SELECT room_key_enc FROM room_keys WHERE room_id = %s`. -/
def getRoomKeyEnc (st : DBState) (rid : String) : Option (List Nat) :=
  (st.room_keys.find? (fun e => e.1 == rid)).map (fun e => e.2)

/-!  ## Connection registry (`services/connection_manager.py`).

`_connections` maps `room_id` to a dict `participant_id → session_id`;
`_sessions` maps `session_id` to `{room_id, participant_id, role}`. Dicts are
association lists; keys are unique in a Python dict, so popping a key is
removing every binding with that key. -/

/-- The value of a `_sessions` entry. -/
structure SessionInfo where
  room_id : String
  participant_id : Nat
  role : Role
deriving DecidableEq, Repr

/-- The connection manager's in-memory state. -/
structure ConnState where
  connections : List (String × List (Nat × String))
  sessions : List (String × SessionInfo)
deriving DecidableEq, Repr

/-- `ConnectionManager.get_room_connections`: the room's dict, `{}` when the
room has no entry. -/
def ConnectionManager.get_room_connections (c : ConnState) (rid : String) :
    List (Nat × String) :=
  match c.connections.find? (fun e => e.1 == rid) with
  | some e => e.2
  | none => []

/-- `ConnectionManager.get_connection_count`. -/
def ConnectionManager.get_connection_count (c : ConnState) (rid : String) : Nat :=
  (ConnectionManager.get_room_connections c rid).length

/-- `ConnectionManager.is_participant_connected`. -/
def ConnectionManager.is_participant_connected (c : ConnState) (rid : String)
    (pid : Nat) : Bool :=
  (ConnectionManager.get_room_connections c rid).any (fun e => e.1 == pid)

/-- `ConnectionManager.add_connection`: set `_connections[room][pid] = sid`
(creating the room entry if absent) and `_sessions[sid] = info`. -/
def ConnectionManager.add_connection (c : ConnState) (sid rid : String)
    (pid : Nat) (role : Role) : ConnState :=
  let cur := ConnectionManager.get_room_connections c rid
  let cur' := cur.filter (fun e => !(e.1 == pid)) ++ [(pid, sid)]
  let conns :=
    if c.connections.any (fun e => e.1 == rid) then
      c.connections.map (fun e => if e.1 == rid then (e.1, cur') else e)
    else c.connections ++ [(rid, cur')]
  { connections := conns,
    sessions := c.sessions.filter (fun e => !(e.1 == sid)) ++
      [(sid, ⟨rid, pid, role⟩)] }

/-- `ConnectionManager.remove_connection`: look the session up; pop the
participant from the room dict, dropping the room entry when it becomes empty;
delete the session. Returns the session info (`None` if the session was
unknown). -/
def ConnectionManager.remove_connection (c : ConnState) (sid : String) :
    Option SessionInfo × ConnState :=
  match c.sessions.find? (fun e => e.1 == sid) with
  | none => (none, c)
  | some entry =>
    let info := entry.2
    let room_list := (ConnectionManager.get_room_connections c info.room_id).filter
      (fun e => !(e.1 == info.participant_id))
    let conns :=
      if room_list.isEmpty then
        c.connections.filter (fun e => !(e.1 == info.room_id))
      else
        c.connections.map
          (fun e => if e.1 == info.room_id then (e.1, room_list) else e)
    (some info,
     { connections := conns,
       sessions := c.sessions.filter (fun e => !(e.1 == sid)) })

/-!  ## Reachable database states (room lifecycle), for the
`archive_key ⇔ archived` invariant. -/

/-- The per-row invariant of claim C9. -/
def ArchiveKeyInv (r : RoomRow) : Prop :=
  r.archive_key ≠ none ↔ r.status = Status.archived

instance (r : RoomRow) : Decidable (ArchiveKeyInv r) := by
  unfold ArchiveKeyInv
  infer_instance

/-- Database states reachable from empty by the operations of the room
lifecycle: room creation (`Room.create_room`'s successful insert), the five
conditional room updates, and the participant / room-key / message mutations
(which leave `rooms` untouched). -/
inductive Reach : DBState → Prop where
  | init : Reach ⟨[], [], [], []⟩
  | create (now : Nat) (rid : String) (st : DBState) : Reach st →
      Reach { st with rooms := st.rooms ++
        [{ room_id := rid, status := Status.pending, created_at := now,
           accepted_at := none, expires_at := none, closed_at := none,
           archive_key := none }] }
  | accept (now : Nat) (rid : String) (st : DBState) : Reach st →
      Reach (Room.accept_room now st rid).2
  | lock (rid : String) (st : DBState) : Reach st →
      Reach (Room.lock_room st rid).2
  | unlock (rid : String) (st : DBState) : Reach st →
      Reach (Room.unlock_room st rid).2
  | close (now : Nat) (rid : String) (st : DBState) : Reach st →
      Reach (Room.close_room now st rid).2
  | archive (rid key : String) (st : DBState) : Reach st →
      Reach (Room.archive_room st rid key).2
  | insert_participant (ok : Bool) (newId : Nat) (rid : String) (role : Role)
      (device ip : String) (now : Nat) (st : DBState) : Reach st →
      Reach (Participant.create_participant ok newId rid role device ip now st).2
  | delete_participant (pid : Nat) (st : DBState) : Reach st →
      Reach (Participant.remove_participant pid st)
  | cleanup (rid : String) (keep : List Nat) (st : DBState) : Reach st →
      Reach (Participant.cleanup_inactive_participants rid keep st)
  | insert_room_key (rid : String) (enc : List Nat) (st : DBState) : Reach st →
      Reach { st with room_keys := st.room_keys ++ [(rid, enc)] }
  | insert_message (m : MessageRow) (st : DBState) : Reach st →
      Reach { st with messages := st.messages ++ [m] }

/-- A conditional room update preserves the C9 invariant when the updated form
of any matching row satisfies it. -/
theorem archiveKeyInv_roomUpdate (st : DBState) (cond : RoomRow → Bool)
    (f : RoomRow → RoomRow)
    (hinv : ∀ r ∈ st.rooms, ArchiveKeyInv r)
    (hf : ∀ r ∈ st.rooms, cond r = true → ArchiveKeyInv (f r)) :
    ∀ r ∈ (roomUpdate st cond f).2.rooms, ArchiveKeyInv r := by
  intro r hr
  simp only [roomUpdate, List.mem_map] at hr
  obtain ⟨r0, hr0, heq⟩ := hr
  by_cases hc : cond r0 = true
  · rw [← heq, if_pos hc]
    exact hf r0 hr0 hc
  · rw [← heq, if_neg hc]
    exact hinv r0 hr0

/-- Extract the status constraint from a matched room-update condition. -/
theorem cond_status_eq {r : RoomRow} {rid : String} {s : Status}
    (h : (r.room_id == rid && r.status == s) = true) : r.status = s := by
  simp only [Bool.and_eq_true, beq_iff_eq] at h
  exact h.2

/-- C9: in every database state reachable by the room lifecycle operations,
a room's `archive_key` is non-null iff its status is `archived`. -/
theorem reachable_archive_key_iff_archived (st : DBState) (h : Reach st) :
    ∀ r ∈ st.rooms, ArchiveKeyInv r := by
  induction h with
  | init =>
    intro r hr
    simp at hr
  | create now rid st _ ih =>
    intro r hr
    simp only [List.mem_append, List.mem_singleton] at hr
    rcases hr with hr | hr
    · exact ih r hr
    · subst hr
      simp [ArchiveKeyInv]
  | accept now rid st _ ih =>
    refine archiveKeyInv_roomUpdate st _ _ ih ?_
    intro r hr hc
    have hs := cond_status_eq hc
    have hkey : r.archive_key = none := by
      have := ih r hr
      rw [ArchiveKeyInv, hs] at this
      by_contra hne
      exact Status.noConfusion (this.mp hne)
    simp [ArchiveKeyInv, hkey]
  | lock rid st _ ih =>
    refine archiveKeyInv_roomUpdate st _ _ ih ?_
    intro r hr hc
    have hs := cond_status_eq hc
    have hkey : r.archive_key = none := by
      have := ih r hr
      rw [ArchiveKeyInv, hs] at this
      by_contra hne
      exact Status.noConfusion (this.mp hne)
    simp [ArchiveKeyInv, hkey]
  | unlock rid st _ ih =>
    refine archiveKeyInv_roomUpdate st _ _ ih ?_
    intro r hr hc
    have hs := cond_status_eq hc
    have hkey : r.archive_key = none := by
      have := ih r hr
      rw [ArchiveKeyInv, hs] at this
      by_contra hne
      exact Status.noConfusion (this.mp hne)
    simp [ArchiveKeyInv, hkey]
  | close now rid st _ ih =>
    refine archiveKeyInv_roomUpdate st _ _ ih ?_
    intro r hr hc
    have hs : r.status = Status.active ∨ r.status = Status.locked := by
      simp only [Bool.and_eq_true, Bool.or_eq_true, beq_iff_eq] at hc
      exact hc.2
    have hkey : r.archive_key = none := by
      have := ih r hr
      rw [ArchiveKeyInv] at this
      by_contra hne
      rw [this.mp hne] at hs
      rcases hs with hs | hs <;> exact Status.noConfusion hs
    simp [ArchiveKeyInv, hkey]
  | archive rid key st _ ih =>
    refine archiveKeyInv_roomUpdate st _ _ ih ?_
    intro r hr hc
    simp [ArchiveKeyInv]
  | insert_participant ok newId rid role device ip now st _ ih =>
    intro r hr
    refine ih r ?_
    unfold Participant.create_participant at hr
    by_cases hok : ok <;> simp [hok] at hr <;> exact hr
  | delete_participant pid st _ ih =>
    exact ih
  | cleanup rid keep st _ ih =>
    intro r hr
    refine ih r ?_
    unfold Participant.cleanup_inactive_participants at hr
    by_cases hk : keep.isEmpty <;> simp [hk] at hr <;> exact hr
  | insert_room_key rid enc st _ ih =>
    exact ih
  | insert_message m st _ ih =>
    exact ih

instance : Inhabited RoomRow :=
  ⟨{ room_id := "", status := Status.pending, created_at := 0,
     accepted_at := none, expires_at := none, closed_at := none,
     archive_key := none }⟩

/-- A demonstration state for the C9 witness: create a room, accept it, close
it, archive it. -/
def demoLifecycleState : DBState :=
  (Room.archive_room
    (Room.close_room 7
      (Room.accept_room 1
        { rooms := [{ room_id := "Ab12", status := Status.pending,
                      created_at := 0, accepted_at := none, expires_at := none,
                      closed_at := none, archive_key := none }],
          participants := [], room_keys := [], messages := [] }
        "Ab12").2
      "Ab12").2
    "Ab12" "archives/Ab12/20260101_000000.json").2

/-- The demonstration state is reachable. -/
theorem demoLifecycleState_reach : Reach demoLifecycleState :=
  Reach.archive "Ab12" "archives/Ab12/20260101_000000.json" _
    (Reach.close 7 "Ab12" _
      (Reach.accept 1 "Ab12" _
        (Reach.create 0 "Ab12" ⟨[], [], [], []⟩ Reach.init)))

/-- Witness for C9: the invariant evaluated on the archived demonstration
state's single room row. -/
theorem reachable_archive_key_iff_archived_witness :
    (demoLifecycleState.rooms.headI.archive_key ≠ none ↔
      demoLifecycleState.rooms.headI.status = Status.archived) :=
  reachable_archive_key_iff_archived demoLifecycleState demoLifecycleState_reach
    demoLifecycleState.rooms.headI (by decide)

/-!  ## `POST /rooms/{id}/accept` (`routes/rooms.py`, `accept_room`).

The handler runs `Room.accept_room`, the `INSERT INTO room_keys`, and
`Participant.create_participant` as three separate `Database` calls, each in
its own transaction; an exception in the key insert propagates to the outer
`except` (returning 500) after the status flip has already committed, and a
failed participant insert is swallowed (`create_participant` returns `None`)
with a 200 response. -/

/-- The claims a JWT carries (`additional_claims`). -/
structure TokenClaims where
  room_id : String
  participant_id : Option Nat
  role : Role
  device_id : String
deriving DecidableEq, Repr

/-- The JSON response of the accept endpoint; absent JSON fields are `none`. -/
structure AcceptResp where
  code : Nat
  success : Option Bool
  status_field : Option Status
  participant_token : Option TokenClaims
  participant_id : Option Nat
  room_key : Option (List Nat)
  error : Option String
deriving DecidableEq, Repr

/-- An error-only accept response. -/
def AcceptResp.err (c : Nat) (msg : String) : AcceptResp :=
  { code := c, success := none, status_field := none, participant_token := none,
    participant_id := none, room_key := none, error := some msg }

/-- The accept endpoint. `room_key`/`nonce` are the RNG draws, `keyInsertOk`
models the `INSERT INTO room_keys` statement (false = raises, transaction
rolled back, outer `except` returns 500), `partInsertOk` models the
participant insert inside `create_participant`, and `newPid` is the
database-assigned participant id. -/
def accept_room_handler (A : AEAD) (master : List Nat) (now : Nat)
    (tok : TokenClaims) (rid client_ip : String) (room_key nonce : List Nat)
    (keyInsertOk partInsertOk : Bool) (newPid : Nat) (st : DBState) :
    AcceptResp × DBState :=
  if !(tok.room_id == rid && tok.role == Role.host) then
    (AcceptResp.err 403 "Unauthorized", st)
  else
    match Room.get_room st rid with
    | none => (AcceptResp.err 404 "Room not found", st)
    | some room =>
      if !(room.status == Status.pending) then
        (AcceptResp.err 400 "Room already accepted or invalid", st)
      else
        let acc := Room.accept_room now st rid
        if !acc.1 then
          (AcceptResp.err 500 "Failed to accept room", acc.2)
        else
          let st1 := acc.2
          let room_key_enc := encrypt_room_key A master nonce room_key
          if !keyInsertOk then
            (AcceptResp.err 500 "Internal server error", st1)
          else
            let st2 := { st1 with room_keys := st1.room_keys ++ [(rid, room_key_enc)] }
            let pres := Participant.create_participant partInsertOk newPid rid
              Role.host tok.device_id client_ip now st2
            match pres.1 with
            | some p =>
              ({ code := 200, success := some true,
                 status_field := some Status.active,
                 participant_token := some ⟨rid, some p.id, Role.host, tok.device_id⟩,
                 participant_id := some p.id, room_key := some room_key,
                 error := none }, pres.2)
            | none =>
              ({ code := 200, success := some true,
                 status_field := some Status.active,
                 participant_token := none, participant_id := none,
                 room_key := none, error := none }, pres.2)

/-- A conditional room update commutes with `get_room` when the update
preserves `room_id`. -/
theorem get_room_roomUpdate (st : DBState) (cond : RoomRow → Bool)
    (f : RoomRow → RoomRow) (hpres : ∀ r, (f r).room_id = r.room_id)
    (rid : String) :
    Room.get_room (roomUpdate st cond f).2 rid =
      (Room.get_room st rid).map (fun r => if cond r then f r else r) := by
  unfold Room.get_room roomUpdate
  simp only [List.find?_map]
  have hp : ((fun r => r.room_id == rid) ∘ fun r => if cond r = true then f r else r) =
      (fun r => r.room_id == rid) := by
    funext r
    by_cases hc : cond r = true
    · simp [hc, hpres r]
    · simp [hc]
  rw [hp]

/-- A database holding one pending room and nothing else. -/
def pendingRoomState : DBState :=
  { rooms := [{ room_id := "Ab12", status := Status.pending, created_at := 0,
                accepted_at := none, expires_at := none, closed_at := none,
                archive_key := none }],
    participants := [], room_keys := [], messages := [] }

/-- A host token for the pending room. -/
def hostTok : TokenClaims := ⟨"Ab12", none, Role.host, "dev-1"⟩

/-- Counterexample to C1 as stated: accepting the pending room with the
wrapped-key insertion failing returns 500, yet the room's status is `active`,
not `pending` — the status flip had already committed in its own
transaction. -/
theorem accept_room_atomicity_counterexample :
    (accept_room_handler testAEAD (List.replicate 32 7) 100 hostTok "Ab12"
        "1.2.3.4" (List.replicate 32 9) (List.replicate 12 2) false true 1
        pendingRoomState).1.code = 500 ∧
    (Room.get_room (accept_room_handler testAEAD (List.replicate 32 7) 100
        hostTok "Ab12" "1.2.3.4" (List.replicate 32 9) (List.replicate 12 2)
        false true 1 pendingRoomState).2 "Ab12").map RoomRow.status =
      some Status.active := by
  constructor
  · rfl
  · rfl

/-- C1 amended: accept is three separate transactions, not one. After a
successful status flip, a failing wrapped-key insert leaves the room `active`
(response 500) with no wrapped key and no new participant; a failing host
participant insert leaves the room `active` (response 200) with the wrapped
key persisted and no new participant. In neither case does the status remain
`pending`. -/
theorem accept_room_not_atomic (A : AEAD) (master : List Nat) (now : Nat)
    (tok : TokenClaims) (rid ip : String) (key nonce : List Nat) (newPid : Nat)
    (st : DBState) (room : RoomRow)
    (htokr : tok.room_id = rid) (htokrole : tok.role = Role.host)
    (hroom : Room.get_room st rid = some room)
    (hpend : room.status = Status.pending)
    (hkey0 : getRoomKeyEnc st rid = none) :
    ((accept_room_handler A master now tok rid ip key nonce false true newPid
        st).1.code = 500 ∧
     (Room.get_room (accept_room_handler A master now tok rid ip key nonce
        false true newPid st).2 rid).map RoomRow.status = some Status.active ∧
     getRoomKeyEnc (accept_room_handler A master now tok rid ip key nonce
        false true newPid st).2 rid = none ∧
     (accept_room_handler A master now tok rid ip key nonce false true newPid
        st).2.participants = st.participants) ∧
    ((accept_room_handler A master now tok rid ip key nonce true false newPid
        st).1.code = 200 ∧
     (Room.get_room (accept_room_handler A master now tok rid ip key nonce
        true false newPid st).2 rid).map RoomRow.status = some Status.active ∧
     getRoomKeyEnc (accept_room_handler A master now tok rid ip key nonce
        true false newPid st).2 rid =
       some (encrypt_room_key A master nonce key) ∧
     (accept_room_handler A master now tok rid ip key nonce true false newPid
        st).2.participants = st.participants) := by
  have htok : (!(tok.room_id == rid && tok.role == Role.host)) = false := by
    simp [htokr, htokrole]
  have hmem := List.mem_of_find?_eq_some hroom
  have hpred := List.find?_some hroom
  have hcond : (room.room_id == rid && room.status == Status.pending) = true := by
    simp only [Bool.and_eq_true, beq_iff_eq]
    exact ⟨by simpa using hpred, hpend⟩
  have hacc1 : (Room.accept_room now st rid).1 = true := by
    unfold Room.accept_room roomUpdate
    simp only [List.any_eq_true]
    exact ⟨room, hmem, hcond⟩
  have haccroom : Room.get_room (Room.accept_room now st rid).2 rid =
      some { room with
             status := Status.active
             accepted_at := some now
             expires_at := some (now + 24 * 3600) } := by
    unfold Room.accept_room
    rw [get_room_roomUpdate st
        (fun r => r.room_id == rid && r.status == Status.pending)
        (fun r =>
          { r with
            status := Status.active
            accepted_at := some now
            expires_at := some (now + 24 * 3600) })
        (fun _ => rfl) rid, hroom]
    simp only [Option.map_some']
    rw [if_pos hcond]
  have haccparts : (Room.accept_room now st rid).2.participants =
      st.participants := rfl
  have hacckeys : (Room.accept_room now st rid).2.room_keys = st.room_keys := rfl
  have hnpend : (!(room.status == Status.pending)) = false := by
    simp [hpend]
  have hrun1 : accept_room_handler A master now tok rid ip key nonce false true
      newPid st =
      (AcceptResp.err 500 "Internal server error", (Room.accept_room now st rid).2) := by
    unfold accept_room_handler
    rw [htok, hroom]
    simp only [Bool.false_eq_true, if_false, hnpend, hacc1, Bool.not_true,
      Bool.not_false, if_true]
  have hrun2 : accept_room_handler A master now tok rid ip key nonce true false
      newPid st =
      ({ code := 200, success := some true, status_field := some Status.active,
         participant_token := none, participant_id := none, room_key := none,
         error := none },
       { (Room.accept_room now st rid).2 with
         room_keys := (Room.accept_room now st rid).2.room_keys ++
           [(rid, encrypt_room_key A master nonce key)] }) := by
    unfold accept_room_handler
    rw [htok, hroom]
    simp only [Bool.false_eq_true, if_false, hnpend, hacc1, Bool.not_true,
      Bool.not_false, if_true, Participant.create_participant]
  have hfind0 : st.room_keys.find? (fun e => e.1 == rid) = none := by
    unfold getRoomKeyEnc at hkey0
    exact Option.map_eq_none'.mp hkey0
  constructor
  · refine ⟨by rw [hrun1]; rfl, ?_, ?_, ?_⟩
    · rw [hrun1, haccroom]
      rfl
    · rw [hrun1]
      unfold getRoomKeyEnc
      rw [hacckeys, hfind0]
      rfl
    · rw [hrun1]
      exact haccparts
  · refine ⟨by rw [hrun2], ?_, ?_, ?_⟩
    · rw [hrun2]
      show (Room.get_room (Room.accept_room now st rid).2 rid).map RoomRow.status =
        some Status.active
      rw [haccroom]
      rfl
    · rw [hrun2]
      unfold getRoomKeyEnc
      show (((Room.accept_room now st rid).2.room_keys ++
        [(rid, encrypt_room_key A master nonce key)]).find?
          (fun e => e.1 == rid)).map (fun e => e.2) =
        some (encrypt_room_key A master nonce key)
      rw [List.find?_append, hacckeys, hfind0]
      simp
    · rw [hrun2]
      exact haccparts

/-- Witness for the amended C1 at the concrete pending room. -/
theorem accept_room_not_atomic_witness :
    (accept_room_handler testAEAD (List.replicate 32 7) 100 hostTok "Ab12"
        "1.2.3.4" (List.replicate 32 9) (List.replicate 12 2) true false 1
        pendingRoomState).1.code = 200 ∧
    getRoomKeyEnc (accept_room_handler testAEAD (List.replicate 32 7) 100
        hostTok "Ab12" "1.2.3.4" (List.replicate 32 9) (List.replicate 12 2)
        true false 1 pendingRoomState).2 "Ab12" =
      some (encrypt_room_key testAEAD (List.replicate 32 7)
        (List.replicate 12 2) (List.replicate 32 9)) :=
  have h := accept_room_not_atomic testAEAD (List.replicate 32 7) 100 hostTok
    "Ab12" "1.2.3.4" (List.replicate 32 9) (List.replicate 12 2) 1
    pendingRoomState
    { room_id := "Ab12", status := Status.pending, created_at := 0,
      accepted_at := none, expires_at := none, closed_at := none,
      archive_key := none }
    rfl rfl rfl rfl rfl
  ⟨h.2.1, h.2.2.2.1⟩

/-- C10: when the host-participant insert returns no row after the status flip
and the wrapped-key insert succeeded, the endpoint still answers 200 with
`success = true`, `status = "active"` and no `participant_token`,
`participant_id` or `room_key` field; the room is left `active` with a stored
wrapped key and zero participants. -/
theorem accept_room_participant_failure_response (A : AEAD) (master : List Nat)
    (now : Nat) (tok : TokenClaims) (rid ip : String) (key nonce : List Nat)
    (newPid : Nat) (st : DBState) (room : RoomRow)
    (htokr : tok.room_id = rid) (htokrole : tok.role = Role.host)
    (hroom : Room.get_room st rid = some room)
    (hpend : room.status = Status.pending)
    (hkey0 : getRoomKeyEnc st rid = none)
    (hnopart : Participant.get_room_participants st rid = []) :
    (accept_room_handler A master now tok rid ip key nonce true false newPid
        st).1 =
      { code := 200, success := some true, status_field := some Status.active,
        participant_token := none, participant_id := none, room_key := none,
        error := none } ∧
    (Room.get_room (accept_room_handler A master now tok rid ip key nonce true
        false newPid st).2 rid).map RoomRow.status = some Status.active ∧
    getRoomKeyEnc (accept_room_handler A master now tok rid ip key nonce true
        false newPid st).2 rid = some (encrypt_room_key A master nonce key) ∧
    Participant.get_room_participants (accept_room_handler A master now tok rid
        ip key nonce true false newPid st).2 rid = [] := by
  have htok : (!(tok.room_id == rid && tok.role == Role.host)) = false := by
    simp [htokr, htokrole]
  have hpred := List.find?_some hroom
  have hcond : (room.room_id == rid && room.status == Status.pending) = true := by
    simp only [Bool.and_eq_true, beq_iff_eq]
    exact ⟨by simpa using hpred, hpend⟩
  have hacc1 : (Room.accept_room now st rid).1 = true := by
    unfold Room.accept_room roomUpdate
    simp only [List.any_eq_true]
    exact ⟨room, List.mem_of_find?_eq_some hroom, hcond⟩
  have haccroom : Room.get_room (Room.accept_room now st rid).2 rid =
      some { room with
             status := Status.active
             accepted_at := some now
             expires_at := some (now + 24 * 3600) } := by
    unfold Room.accept_room
    rw [get_room_roomUpdate st
        (fun r => r.room_id == rid && r.status == Status.pending)
        (fun r =>
          { r with
            status := Status.active
            accepted_at := some now
            expires_at := some (now + 24 * 3600) })
        (fun _ => rfl) rid, hroom]
    simp only [Option.map_some']
    rw [if_pos hcond]
  have haccparts : (Room.accept_room now st rid).2.participants =
      st.participants := rfl
  have hacckeys : (Room.accept_room now st rid).2.room_keys = st.room_keys := rfl
  have hnpend : (!(room.status == Status.pending)) = false := by
    simp [hpend]
  have hrun : accept_room_handler A master now tok rid ip key nonce true false
      newPid st =
      ({ code := 200, success := some true, status_field := some Status.active,
         participant_token := none, participant_id := none, room_key := none,
         error := none },
       { (Room.accept_room now st rid).2 with
         room_keys := (Room.accept_room now st rid).2.room_keys ++
           [(rid, encrypt_room_key A master nonce key)] }) := by
    unfold accept_room_handler
    rw [htok, hroom]
    simp only [Bool.false_eq_true, if_false, hnpend, hacc1, Bool.not_true,
      Bool.not_false, if_true, Participant.create_participant]
  have hfind0 : st.room_keys.find? (fun e => e.1 == rid) = none := by
    unfold getRoomKeyEnc at hkey0
    exact Option.map_eq_none'.mp hkey0
  refine ⟨by rw [hrun], ?_, ?_, ?_⟩
  · rw [hrun]
    show (Room.get_room (Room.accept_room now st rid).2 rid).map RoomRow.status =
      some Status.active
    rw [haccroom]
    rfl
  · rw [hrun]
    unfold getRoomKeyEnc
    show (((Room.accept_room now st rid).2.room_keys ++
      [(rid, encrypt_room_key A master nonce key)]).find?
        (fun e => e.1 == rid)).map (fun e => e.2) =
      some (encrypt_room_key A master nonce key)
    rw [List.find?_append, hacckeys, hfind0]
    simp
  · rw [hrun]
    show Participant.get_room_participants (Room.accept_room now st rid).2 rid = []
    unfold Participant.get_room_participants
    rw [haccparts]
    exact hnopart

/-- Witness for C10 at the concrete pending room. -/
theorem accept_room_participant_failure_response_witness :
    (accept_room_handler testAEAD (List.replicate 32 7) 100 hostTok "Ab12"
        "1.2.3.4" (List.replicate 32 9) (List.replicate 12 2) true false 1
        pendingRoomState).1 =
      { code := 200, success := some true, status_field := some Status.active,
        participant_token := none, participant_id := none, room_key := none,
        error := none } ∧
    Participant.get_room_participants (accept_room_handler testAEAD
        (List.replicate 32 7) 100 hostTok "Ab12" "1.2.3.4"
        (List.replicate 32 9) (List.replicate 12 2) true false 1
        pendingRoomState).2 "Ab12" = [] :=
  have h := accept_room_participant_failure_response testAEAD
    (List.replicate 32 7) 100 hostTok "Ab12" "1.2.3.4" (List.replicate 32 9)
    (List.replicate 12 2) 1 pendingRoomState
    { room_id := "Ab12", status := Status.pending, created_at := 0,
      accepted_at := none, expires_at := none, closed_at := none,
      archive_key := none }
    rfl rfl rfl rfl rfl rfl
  ⟨h.1, h.2.2.2⟩

/-!  ## `POST /rooms/{id}/join` (`routes/rooms.py`, `join_room`). -/

/-- The JSON response of the join endpoint; absent fields are `none`. -/
structure JoinResp where
  code : Nat
  participant_id : Option Nat
  participant_token : Option TokenClaims
  role : Option Role
  display_name : Option (Option String)
  room_key : Option (List Nat)
  error : Option String
deriving DecidableEq, Repr

/-- An error-only join response. -/
def JoinResp.err (c : Nat) (msg : String) : JoinResp :=
  { code := c, participant_id := none, participant_token := none, role := none,
    display_name := none, room_key := none, error := some msg }

/-- The room-key read-back in the join handler: look the wrapped key up and
unwrap it; a missing row or a decryption exception leaves the field `None`. -/
def getRoomKeyForResponse (A : AEAD) (master : List Nat) (st : DBState)
    (rid : String) : Option (List Nat) :=
  match getRoomKeyEnc st rid with
  | none => none
  | some enc => decrypt_room_key A master enc

/-- The join endpoint. `createOk` models the participant insert, `newPid` the
database-assigned id. Order of checks follows the source: room lookup, status,
expiry, reconnect lookup, live/persisted counts, role, insert, lock. -/
def join_room_handler (A : AEAD) (master : List Nat) (now : Nat)
    (device_id client_ip : String) (createOk : Bool) (newPid : Nat)
    (conn : ConnState) (st : DBState) (rid : String) : JoinResp × DBState :=
  match Room.get_room st rid with
  | none => (JoinResp.err 404 "Room not found", st)
  | some room =>
    if !(room.status == Status.active || room.status == Status.locked) then
      (JoinResp.err 400 "Room is not available for joining", st)
    else if (match room.expires_at with
             | some e => decide (e < now)
             | none => false) then
      (JoinResp.err 410 "Room has expired", st)
    else
      match Participant.get_participant_by_device st rid device_id with
      | some existing =>
        ({ code := 200, participant_id := some existing.id,
           participant_token := some ⟨rid, some existing.id, existing.role,
             device_id⟩,
           role := some existing.role,
           display_name := some existing.display_name,
           room_key := getRoomKeyForResponse A master st rid,
           error := none }, st)
      | none =>
        let active_count := ConnectionManager.get_connection_count conn rid
        let db_count := Participant.count_participants st rid
        if 2 ≤ max active_count db_count then
          (JoinResp.err 409 "Room is full", st)
        else
          let role := if db_count == 0 then Role.host else Role.guest
          let pres := Participant.create_participant createOk newPid rid role
            device_id client_ip now st
          match pres.1 with
          | none => (JoinResp.err 500 "Failed to join room", pres.2)
          | some p =>
            let st2 := if db_count == 1 then (Room.lock_room pres.2 rid).2
                       else pres.2
            ({ code := 201, participant_id := some p.id,
               participant_token := some ⟨rid, some p.id, role, device_id⟩,
               role := some role,
               display_name := none,
               room_key := getRoomKeyForResponse A master st2 rid,
               error := none }, st2)

/-- Appending a participant row of the room increments the persisted count. -/
theorem count_participants_append_self (st : DBState) (rid : String)
    (row : ParticipantRow) (h : row.room_id = rid) :
    Participant.count_participants
      { st with participants := st.participants ++ [row] } rid =
      Participant.count_participants st rid + 1 := by
  unfold Participant.count_participants
  simp [List.filter_append, h]

/-- C2: for a fresh join (no row for the caller's device) of a non-expired
`active`/`locked` room, the handler rejects with 409 exactly when
`max(live, persisted) ≥ 2` (leaving the database unchanged), and otherwise
admits with 201, role `host` iff the persisted count was 0, increments the
persisted count, and moves the room to `locked` exactly when the new
persisted count reaches 2 (a lock that only fires from `active`). -/
theorem join_room_fresh_path (A : AEAD) (master : List Nat) (now : Nat)
    (device ip : String) (newPid : Nat) (conn : ConnState) (st : DBState)
    (rid : String) (room : RoomRow)
    (hroom : Room.get_room st rid = some room)
    (hstatus : room.status = Status.active ∨ room.status = Status.locked)
    (hnotexp : (match room.expires_at with
                | some e => decide (e < now)
                | none => false) = false)
    (hfresh : Participant.get_participant_by_device st rid device = none) :
    (2 ≤ max (ConnectionManager.get_connection_count conn rid)
        (Participant.count_participants st rid) →
      (join_room_handler A master now device ip true newPid conn st rid).1.code
        = 409 ∧
      (join_room_handler A master now device ip true newPid conn st rid).2 = st) ∧
    (max (ConnectionManager.get_connection_count conn rid)
        (Participant.count_participants st rid) < 2 →
      (join_room_handler A master now device ip true newPid conn st rid).1.code
        = 201 ∧
      (join_room_handler A master now device ip true newPid conn st rid).1.role
        = some (if Participant.count_participants st rid = 0 then Role.host
                else Role.guest) ∧
      Participant.count_participants
        (join_room_handler A master now device ip true newPid conn st rid).2 rid
        = Participant.count_participants st rid + 1 ∧
      (Room.get_room
          (join_room_handler A master now device ip true newPid conn st rid).2
          rid).map RoomRow.status
        = some (if Participant.count_participants st rid = 1 ∧
                    room.status = Status.active
                then Status.locked else room.status)) := by
  have hstat' : (!(room.status == Status.active || room.status == Status.locked))
      = false := by
    rcases hstatus with h | h <;> simp [h]
  have hpred := List.find?_some hroom
  constructor
  · intro hge
    have hrun : join_room_handler A master now device ip true newPid conn st rid
        = (JoinResp.err 409 "Room is full", st) := by
      unfold join_room_handler
      rw [hroom]
      simp only [hstat', Bool.false_eq_true, if_false, hnotexp, hfresh]
      rw [if_pos hge]
    exact ⟨by rw [hrun]; rfl, by rw [hrun]⟩
  · intro hlt
    have hnge : ¬ 2 ≤ max (ConnectionManager.get_connection_count conn rid)
        (Participant.count_participants st rid) := not_le.mpr hlt
    have hdb2 : Participant.count_participants st rid < 2 :=
      lt_of_le_of_lt (le_max_right _ _) hlt
    have hdb01 : Participant.count_participants st rid = 0 ∨
        Participant.count_participants st rid = 1 := by omega
    rcases hdb01 with hdb | hdb
    · -- persisted count 0: role host, no lock
      have hrun : join_room_handler A master now device ip true newPid conn st
          rid =
          ({ code := 201, participant_id := some newPid,
             participant_token := some ⟨rid, some newPid, Role.host, device⟩,
             role := some Role.host, display_name := none,
             room_key := getRoomKeyForResponse A master
               { st with participants := st.participants ++
                 [{ id := newPid, room_id := rid, role := Role.host,
                    device_id := device, display_name := none,
                    ip_address := some ip, joined_at := now }] } rid,
             error := none },
           { st with participants := st.participants ++
             [{ id := newPid, room_id := rid, role := Role.host,
                device_id := device, display_name := none,
                ip_address := some ip, joined_at := now }] }) := by
        unfold join_room_handler
        rw [hroom]
        simp only [hstat', Bool.false_eq_true, if_false, hnotexp, hfresh]
        rw [if_neg hnge]
        simp only [hdb, Participant.create_participant, if_true]
        rfl
      refine ⟨by rw [hrun], ?_, ?_, ?_⟩
      · rw [hrun, hdb]
        rfl
      · rw [hrun]
        exact count_participants_append_self st rid
          { id := newPid, room_id := rid, role := Role.host,
            device_id := device, display_name := none, ip_address := some ip,
            joined_at := now } rfl
      · rw [hrun]
        show (Room.get_room st rid).map RoomRow.status = _
        rw [hroom, hdb]
        simp
    · -- persisted count 1: role guest, lock fires (from active)
      have hrun : join_room_handler A master now device ip true newPid conn st
          rid =
          ({ code := 201, participant_id := some newPid,
             participant_token := some ⟨rid, some newPid, Role.guest, device⟩,
             role := some Role.guest, display_name := none,
             room_key := getRoomKeyForResponse A master
               (Room.lock_room
                 { st with participants := st.participants ++
                   [{ id := newPid, room_id := rid, role := Role.guest,
                      device_id := device, display_name := none,
                      ip_address := some ip, joined_at := now }] } rid).2 rid,
             error := none },
           (Room.lock_room
             { st with participants := st.participants ++
               [{ id := newPid, room_id := rid, role := Role.guest,
                  device_id := device, display_name := none,
                  ip_address := some ip, joined_at := now }] } rid).2) := by
        unfold join_room_handler
        rw [hroom]
        simp only [hstat', Bool.false_eq_true, if_false, hnotexp, hfresh]
        rw [if_neg hnge]
        simp only [hdb, Participant.create_participant, if_true]
        rfl
      have hmid : Room.get_room
          { st with participants := st.participants ++
            [{ id := newPid, room_id := rid, role := Role.guest,
               device_id := device, display_name := none,
               ip_address := some ip, joined_at := now }] } rid =
          some room := hroom
      refine ⟨by rw [hrun], by rw [hrun, hdb]; rfl, ?_, ?_⟩
      · rw [hrun]
        exact count_participants_append_self st rid
          { id := newPid, room_id := rid, role := Role.guest,
            device_id := device, display_name := none, ip_address := some ip,
            joined_at := now } rfl
      · rw [hrun]
        unfold Room.lock_room
        rw [get_room_roomUpdate _
            (fun r => r.room_id == rid && r.status == Status.active)
            (fun r => { r with status := Status.locked })
            (fun _ => rfl) rid, hmid]
        rcases hstatus with hs | hs
        · have hcond : (room.room_id == rid && room.status == Status.active)
              = true := by
            simp only [Bool.and_eq_true, beq_iff_eq]
            exact ⟨by simpa using hpred, hs⟩
          rw [Option.map_some', if_pos hcond]
          simp [hdb, hs]
        · have hcond : ¬ (room.room_id == rid && room.status == Status.active)
              = true := by
            simp only [Bool.and_eq_true, beq_iff_eq, hs]
            rintro ⟨-, h⟩
            exact Status.noConfusion h
          rw [Option.map_some', if_neg hcond]
          simp [hdb, hs]

/-- An empty connection registry. -/
def emptyConn : ConnState := ⟨[], []⟩

/-- An active, unexpired room for the join witness. -/
def joinDemoRoom : RoomRow :=
  { room_id := "Ab12", status := Status.active, created_at := 0,
    accepted_at := some 10, expires_at := some 100000, closed_at := none,
    archive_key := none }

/-- A database with the active room and one persisted host participant. -/
def joinDemoState : DBState :=
  { rooms := [joinDemoRoom],
    participants := [{ id := 1, room_id := "Ab12", role := Role.host,
                       device_id := "dev-1", display_name := none,
                       ip_address := some "1.1.1.1", joined_at := 10 }],
    room_keys := [], messages := [] }

/-- Witness for C2: a second, fresh device joins the one-participant active
room — 201, role guest, and the room is now locked. -/
theorem join_room_fresh_path_witness :
    (join_room_handler testAEAD (List.replicate 32 7) 50 "dev-2" "9.9.9.9" true 2
        emptyConn joinDemoState "Ab12").1.code = 201 ∧
    (join_room_handler testAEAD (List.replicate 32 7) 50 "dev-2" "9.9.9.9" true 2
        emptyConn joinDemoState "Ab12").1.role = some Role.guest ∧
    (Room.get_room (join_room_handler testAEAD (List.replicate 32 7) 50 "dev-2"
        "9.9.9.9" true 2 emptyConn joinDemoState "Ab12").2 "Ab12").map
      RoomRow.status = some Status.locked := by
  have h := join_room_fresh_path testAEAD (List.replicate 32 7) 50 "dev-2"
    "9.9.9.9" 2 emptyConn joinDemoState "Ab12" joinDemoRoom rfl (Or.inl rfl)
    rfl rfl
  have h2 := h.2 (by decide)
  have hc : Participant.count_participants joinDemoState "Ab12" = 1 := rfl
  refine ⟨h2.1, ?_, ?_⟩
  · have h3 := h2.2.1
    rw [hc] at h3
    simpa using h3
  · have h3 := h2.2.2.2
    rw [hc] at h3
    simpa [joinDemoRoom] using h3

/-!  ## Socket disconnect (`sockets.py`, `on_disconnect`). -/

/-- The disconnect handler: remove the session from the registry, delete the
participant row, reconcile persisted participants against the remaining live
ids, and if fewer than 2 remain while the room is `locked`, unlock it back to
`active`. `sessRoom`/`sessPid` are the flask-session values; the handler does
nothing when either is absent. Emits are I/O and not modelled. -/
def on_disconnect (sid : String) (sessRoom : Option String)
    (sessPid : Option Nat) (conn : ConnState) (st : DBState) :
    ConnState × DBState :=
  match sessRoom, sessPid with
  | some rid, some pid =>
    let conn1 := (ConnectionManager.remove_connection conn sid).2
    let st1 := Participant.remove_participant pid st
    let remaining := (ConnectionManager.get_room_connections conn1 rid).map
      (fun e => e.1)
    let st2 := Participant.cleanup_inactive_participants rid remaining st1
    let st3 :=
      if remaining.length < 2 then
        match Room.get_room st2 rid with
        | some room =>
          if room.status == Status.locked then (Room.unlock_room st2 rid).2
          else st2
        | none => st2
      else st2
    (conn1, st3)
  | _, _ => (conn, st)

/-- Removing a session pops exactly its participant from the room's
connection dict (dropping the room entry when that empties it). -/
theorem get_room_connections_remove (conn : ConnState) (sid : String)
    (info : SessionInfo)
    (hs : conn.sessions.find? (fun e => e.1 == sid) = some (sid, info)) :
    ConnectionManager.get_room_connections
      (ConnectionManager.remove_connection conn sid).2 info.room_id =
      (ConnectionManager.get_room_connections conn info.room_id).filter
        (fun e => !(e.1 == info.participant_id)) := by
  have hnone : ∀ L : List (String × List (Nat × String)),
      (L.filter (fun e => !(e.1 == info.room_id))).find?
        (fun e => e.1 == info.room_id) = none := by
    intro L
    rw [List.find?_eq_none]
    intro x hx
    simpa using (List.mem_filter.mp hx).2
  unfold ConnectionManager.remove_connection ConnectionManager.get_room_connections
  rw [hs]
  dsimp only
  cases hfc : conn.connections.find? (fun e => e.1 == info.room_id) with
  | none =>
    dsimp only
    simp only [List.filter_nil, List.isEmpty_nil, if_true]
    rw [hnone]
  | some e =>
    dsimp only
    by_cases hemp : (e.2.filter (fun x => !(x.1 == info.participant_id))).isEmpty
      = true
    · rw [if_pos hemp, hnone]
      exact (List.isEmpty_iff.mp hemp).symm
    · rw [if_neg hemp, List.find?_map]
      have hcomp : ((fun x => x.1 == info.room_id) ∘
          (fun x => if x.1 == info.room_id then
            (x.1, e.2.filter (fun y => !(y.1 == info.participant_id))) else x)) =
          (fun (x : String × List (Nat × String)) => x.1 == info.room_id) := by
        funext x
        simp only [Function.comp]
        by_cases hx : (x.1 == info.room_id) = true
        · rw [if_pos hx]
        · rw [if_neg hx]
      rw [hcomp, hfc]
      have he := List.find?_some hfc
      rw [Option.map_some', if_pos he]


/-- C7: after the disconnect handler runs for a connected participant, the
participant is no longer connected in the registry, their row is gone from
persistence, every remaining persisted participant of the room is in the
remaining live set, and a `locked` room whose remaining live count is below 2
becomes `active`. -/
theorem disconnect_cleanup (sid rid : String) (pid : Nat) (conn : ConnState)
    (st : DBState) (room : RoomRow)
    (hs : conn.sessions.find? (fun e => e.1 == sid) = some (sid, ⟨rid, pid, Role.guest⟩) ∨
          conn.sessions.find? (fun e => e.1 == sid) = some (sid, ⟨rid, pid, Role.host⟩))
    (hroom : Room.get_room st rid = some room) :
    ConnectionManager.is_participant_connected
      (on_disconnect sid (some rid) (some pid) conn st).1 rid pid = false ∧
    (∀ p ∈ (on_disconnect sid (some rid) (some pid) conn st).2.participants,
      p.id ≠ pid) ∧
    (∀ p ∈ (on_disconnect sid (some rid) (some pid) conn st).2.participants,
      p.room_id = rid →
      p.id ∈ (ConnectionManager.get_room_connections
        (on_disconnect sid (some rid) (some pid) conn st).1 rid).map
        (fun e => e.1)) ∧
    ((ConnectionManager.get_room_connections
        (on_disconnect sid (some rid) (some pid) conn st).1 rid).length < 2 →
      room.status = Status.locked →
      (Room.get_room (on_disconnect sid (some rid) (some pid) conn st).2
        rid).map RoomRow.status = some Status.active) := by
  obtain ⟨role, hs⟩ : ∃ role, conn.sessions.find? (fun e => e.1 == sid) =
      some (sid, ⟨rid, pid, role⟩) := by
    rcases hs with h | h
    · exact ⟨Role.guest, h⟩
    · exact ⟨Role.host, h⟩
  have hA : ConnectionManager.get_room_connections
      (ConnectionManager.remove_connection conn sid).2 rid =
      (ConnectionManager.get_room_connections conn rid).filter
        (fun e => !(e.1 == pid)) :=
    get_room_connections_remove conn sid ⟨rid, pid, role⟩ hs
  have hconn1 : (on_disconnect sid (some rid) (some pid) conn st).1 =
      (ConnectionManager.remove_connection conn sid).2 := rfl
  -- the remaining live ids and the database states of the handler
  set conn1 := (ConnectionManager.remove_connection conn sid).2 with hc1
  set remaining := (ConnectionManager.get_room_connections conn1 rid).map
    (fun e => e.1) with hrem
  set st2 := Participant.cleanup_inactive_participants rid remaining
    (Participant.remove_participant pid st) with hst2
  have hrun : on_disconnect sid (some rid) (some pid) conn st =
      (conn1,
       if remaining.length < 2 then
         match Room.get_room st2 rid with
         | some r => if r.status == Status.locked
                     then (Room.unlock_room st2 rid).2 else st2
         | none => st2
       else st2) := rfl
  have hparts3 : (on_disconnect sid (some rid) (some pid) conn st).2.participants
      = st2.participants := by
    rw [hrun]
    by_cases h1 : remaining.length < 2
    · rw [if_pos h1]
      cases hg : Room.get_room st2 rid with
      | none => rfl
      | some r =>
        show (if (r.status == Status.locked) = true
              then (Room.unlock_room st2 rid).2 else st2).participants =
          st2.participants
        by_cases h2 : (r.status == Status.locked) = true
        · rw [if_pos h2]
          rfl
        · rw [if_neg h2]
    · rw [if_neg h1]
  have hmem2 : ∀ p, p ∈ st2.participants →
      p ∈ st.participants ∧ (p.id == pid) = false ∧
      (p.room_id = rid → p.id ∈ remaining) := by
    intro p hp
    rw [hst2] at hp
    unfold Participant.cleanup_inactive_participants at hp
    by_cases hk : remaining.isEmpty = true
    · rw [if_pos hk] at hp
      dsimp only at hp
      have h1 := List.mem_filter.mp hp
      have h2 := List.mem_filter.mp h1.1
      refine ⟨h2.1, by simpa using h2.2, ?_⟩
      intro hprid
      exfalso
      have := h1.2
      simp [hprid] at this
    · rw [if_neg hk] at hp
      dsimp only at hp
      have h1 := List.mem_filter.mp hp
      have h2 := List.mem_filter.mp h1.1
      refine ⟨h2.1, by simpa using h2.2, ?_⟩
      intro hprid
      have h3 := h1.2
      simp only [hprid, beq_self_eq_true, Bool.true_and, Bool.not_not] at h3
      simpa using h3
  refine ⟨?_, ?_, ?_, ?_⟩
  · rw [hconn1]
    unfold ConnectionManager.is_participant_connected
    rw [hA]
    rw [Bool.eq_false_iff]
    intro hany
    obtain ⟨x, hx, hpx⟩ := List.any_eq_true.mp hany
    have := (List.mem_filter.mp hx).2
    rw [hpx] at this
    exact Bool.noConfusion this
  · intro p hp
    rw [hparts3] at hp
    have := (hmem2 p hp).2.1
    intro heq
    rw [heq] at this
    simp at this
  · intro p hp hprid
    rw [hparts3] at hp
    rw [hconn1]
    exact (hmem2 p hp).2.2 hprid
  · intro hlt hlocked
    rw [hconn1] at hlt
    have hlt2 : remaining.length < 2 := by
      rw [hrem, List.length_map]
      exact hlt
    have hrooms2 : st2.rooms = st.rooms := by
      rw [hst2]
      unfold Participant.cleanup_inactive_participants
      by_cases hk : remaining.isEmpty = true
      · rw [if_pos hk]
        rfl
      · rw [if_neg hk]
        rfl
    have hg2 : Room.get_room st2 rid = some room := by
      unfold Room.get_room
      rw [hrooms2]
      exact hroom
    have hcond : (room.room_id == rid && room.status == Status.locked) = true := by
      simp only [Bool.and_eq_true, beq_iff_eq]
      exact ⟨by simpa using List.find?_some hroom, hlocked⟩
    have hlock2 : (room.status == Status.locked) = true := by
      simp [hlocked]
    rw [hrun]
    show (Room.get_room
        (if remaining.length < 2 then
          match Room.get_room st2 rid with
          | some r => if r.status == Status.locked
                      then (Room.unlock_room st2 rid).2 else st2
          | none => st2
         else st2) rid).map RoomRow.status = some Status.active
    rw [if_pos hlt2, hg2]
    show (Room.get_room
        (if (room.status == Status.locked) = true
         then (Room.unlock_room st2 rid).2 else st2) rid).map RoomRow.status =
      some Status.active
    rw [if_pos hlock2]
    unfold Room.unlock_room
    rw [get_room_roomUpdate st2
        (fun r => r.room_id == rid && r.status == Status.locked)
        (fun r => { r with status := Status.active })
        (fun _ => rfl) rid, hg2, Option.map_some', if_pos hcond]
    rfl

/-- A locked room for the disconnect witness. -/
def discDemoRoom : RoomRow :=
  { room_id := "Ab12", status := Status.locked, created_at := 0,
    accepted_at := some 1, expires_at := some 90000, closed_at := none,
    archive_key := none }

/-- Database with the locked room and two persisted participants. -/
def discDemoState : DBState :=
  { rooms := [discDemoRoom],
    participants :=
      [{ id := 1, room_id := "Ab12", role := Role.host, device_id := "d1",
         display_name := none, ip_address := none, joined_at := 1 },
       { id := 2, room_id := "Ab12", role := Role.guest, device_id := "d2",
         display_name := none, ip_address := none, joined_at := 2 }],
    room_keys := [], messages := [] }

/-- Registry with both participants connected. -/
def discDemoConn : ConnState :=
  { connections := [("Ab12", [(1, "s1"), (2, "s2")])],
    sessions := [("s1", ⟨"Ab12", 1, Role.host⟩),
                 ("s2", ⟨"Ab12", 2, Role.guest⟩)] }

/-- Witness for C7: the host's socket disconnects; they are no longer
connected and the locked room drops back to `active`. -/
theorem disconnect_cleanup_witness :
    ConnectionManager.is_participant_connected
      (on_disconnect "s1" (some "Ab12") (some 1) discDemoConn
        discDemoState).1 "Ab12" 1 = false ∧
    (Room.get_room (on_disconnect "s1" (some "Ab12") (some 1) discDemoConn
        discDemoState).2 "Ab12").map RoomRow.status = some Status.active := by
  have h := disconnect_cleanup "s1" "Ab12" 1 discDemoConn discDemoState
    discDemoRoom (Or.inr rfl) rfl
  exact ⟨h.1, h.2.2.2 (by decide) rfl⟩

/-!  ## Messages and archival (`models/messages.py`, `services/archive.py`). -/

/-- Insertion step of the `ORDER BY m.created_at ASC` sort. -/
def insertByCreated (m : MessageRow) : List MessageRow → List MessageRow
  | [] => [m]
  | x :: xs => if m.created_at < x.created_at then m :: x :: xs
               else x :: insertByCreated m xs

/-- `ORDER BY m.created_at ASC` as an insertion sort. -/
def sortByCreated : List MessageRow → List MessageRow
  | [] => []
  | x :: xs => insertByCreated x (sortByCreated xs)

/-- A message row as returned by `Message.get_room_messages`, after the
`LEFT JOIN participants` (adding `display_name` and `role`). -/
structure FetchedMsg where
  id : Nat
  room_id : String
  participant_id : Nat
  created_at : Nat
  body_ct : List Nat
  nonce : List Nat
  tag : List Nat
  msg_type : String
  ip_address : Option String
  display_name : Option String
  role : Option Role
deriving DecidableEq, Repr

/-- The `LEFT JOIN participants p ON m.participant_id = p.id` of the
message query. -/
def joinParticipant (st : DBState) (m : MessageRow) : FetchedMsg :=
  let p := st.participants.find? (fun q => q.id == m.participant_id)
  { id := m.id, room_id := m.room_id, participant_id := m.participant_id,
    created_at := m.created_at, body_ct := m.body_ct, nonce := m.nonce,
    tag := m.tag, msg_type := m.msg_type, ip_address := m.ip_address,
    display_name := p.bind (fun q => q.display_name),
    role := p.map (fun q => q.role) }

/-- `Message.get_room_messages`: rows of the room in `created_at` order,
capped at `limit`, joined with participants. -/
def Message.get_room_messages (st : DBState) (rid : String) (limit : Nat) :
    List FetchedMsg :=
  ((sortByCreated (st.messages.filter (fun m => m.room_id == rid))).take
    limit).map (joinParticipant st)

/-- What the archive stores for one message: the decrypted text, or the
`"[DECRYPTION_FAILED]"` sentinel. -/
inductive ArchivedContent where
  | text (pt : List Nat)
  | decryptionFailed
deriving DecidableEq, Repr

/-- One entry of the archive's `messages` list; `has_error` is the presence
of the `error` field. -/
structure ArchiveMsg where
  id : Nat
  participant_id : Nat
  display_name : Option String
  role : Option Role
  created_at : Nat
  content : ArchivedContent
  msg_type : String
  ip_address : Option String
  has_error : Bool
deriving DecidableEq, Repr

/-- The archive JSON document. -/
structure ArchiveDoc where
  room : RoomRow
  participant_ids : List Nat
  messages : List ArchiveMsg
  archived_at : Nat
  message_count : Nat
  participant_count : Nat
deriving DecidableEq, Repr

/-- The per-message branch of `ArchiveService.archive_room`: decrypt, and on
exception record the sentinel and an error field in place. -/
def archiveEntry (A : AEAD) (room_key : List Nat) (m : FetchedMsg) : ArchiveMsg :=
  match decrypt_message A room_key m.body_ct m.nonce m.tag with
  | some pt =>
    { id := m.id, participant_id := m.participant_id,
      display_name := m.display_name, role := m.role,
      created_at := m.created_at, content := ArchivedContent.text pt,
      msg_type := m.msg_type, ip_address := m.ip_address, has_error := false }
  | none =>
    { id := m.id, participant_id := m.participant_id,
      display_name := m.display_name, role := m.role,
      created_at := m.created_at, content := ArchivedContent.decryptionFailed,
      msg_type := m.msg_type, ip_address := m.ip_address, has_error := true }

/-- `ArchiveService.archive_room`: load room, participants and (at most
10000) messages; unwrap the key (failure aborts with `False`); decrypt each
message with in-place failure entries; build the document; upload
(`uploadOk`); then conditionally mark archived (`dbOk` models the update
statement raising). Returns (result, document built, database). -/
def ArchiveService.archive_room (A : AEAD) (master : List Nat) (now : Nat)
    (uploadOk dbOk : Bool) (st : DBState) (rid : String) :
    Bool × Option ArchiveDoc × DBState :=
  match Room.get_room st rid with
  | none => (false, none, st)
  | some room =>
    let participants := Participant.get_room_participants st rid
    let msgs := Message.get_room_messages st rid 10000
    match getRoomKeyEnc st rid with
    | none => (false, none, st)
    | some enc =>
      match decrypt_room_key A master enc with
      | none => (false, none, st)
      | some room_key =>
        let decrypted := msgs.map (archiveEntry A room_key)
        let doc : ArchiveDoc :=
          { room := room, participant_ids := participants.map (fun p => p.id),
            messages := decrypted, archived_at := now,
            message_count := decrypted.length,
            participant_count := participants.length }
        if uploadOk then
          if dbOk then
            let res := Room.archive_room st rid
              ("archives/" ++ rid ++ "/" ++ toString now ++ ".json")
            (res.1, some doc, res.2)
          else (false, some doc, st)
        else (false, some doc, st)

/-- Insertion preserves length. -/
theorem length_insertByCreated (m : MessageRow) (l : List MessageRow) :
    (insertByCreated m l).length = l.length + 1 := by
  induction l with
  | nil => rfl
  | cons x xs ih =>
    unfold insertByCreated
    by_cases h : m.created_at < x.created_at
    · rw [if_pos h]
      rfl
    · rw [if_neg h]
      simp [ih]

/-- Sorting preserves length. -/
theorem length_sortByCreated (l : List MessageRow) :
    (sortByCreated l).length = l.length := by
  induction l with
  | nil => rfl
  | cons x xs ih =>
    unfold sortByCreated
    rw [length_insertByCreated, ih]
    rfl

/-- Inserting an element into copies of itself appends one more copy. -/
theorem insertByCreated_replicate_self (m : MessageRow) (k : Nat) :
    insertByCreated m (List.replicate k m) = List.replicate (k + 1) m := by
  induction k with
  | zero => rfl
  | succ j ih =>
    rw [List.replicate_succ]
    unfold insertByCreated
    rw [if_neg (lt_irrefl m.created_at), ih]
    rw [List.replicate_succ, List.replicate_succ]
    rfl

/-- Sorting a constant list is the identity. -/
theorem sortByCreated_replicate (n : Nat) (m : MessageRow) :
    sortByCreated (List.replicate n m) = List.replicate n m := by
  induction n with
  | zero => rfl
  | succ k ih =>
    rw [List.replicate_succ]
    unfold sortByCreated
    rw [ih, insertByCreated_replicate_self]
    rw [List.replicate_succ]

/-- `Forall₂` against a mapped copy of the same list. -/
theorem forall2_map_self {α β : Type} (f : α → β) (R : α → β → Prop)
    (l : List α) (h : ∀ a ∈ l, R a (f a)) : List.Forall₂ R l (l.map f) := by
  induction l with
  | nil => exact List.Forall₂.nil
  | cons x xs ih =>
    exact List.Forall₂.cons (h x (List.mem_cons_self x xs))
      (ih (fun a ha => h a (List.mem_cons_of_mem x ha)))

/-- C5: archival of a closed room never aborts on a per-message decryption
failure — the document pairs every fetched message with an entry in place,
the failing ones carrying the sentinel and an error field, the others the
decrypted text — and if the upload or the status update fails, the room's
status is still `closed` afterwards. -/
theorem archive_room_resilience (A : AEAD) (master : List Nat) (now : Nat)
    (uploadOk dbOk : Bool) (st : DBState) (rid : String) (room : RoomRow)
    (enc key : List Nat)
    (hroom : Room.get_room st rid = some room)
    (hclosed : room.status = Status.closed)
    (henc : getRoomKeyEnc st rid = some enc)
    (hdec : decrypt_room_key A master enc = some key) :
    (∃ doc, (ArchiveService.archive_room A master now uploadOk dbOk st
        rid).2.1 = some doc ∧
      List.Forall₂ (fun (m : FetchedMsg) (e : ArchiveMsg) =>
        e.id = m.id ∧ e.created_at = m.created_at ∧
        ((∃ pt, decrypt_message A key m.body_ct m.nonce m.tag = some pt ∧
           e.content = ArchivedContent.text pt ∧ e.has_error = false) ∨
         (decrypt_message A key m.body_ct m.nonce m.tag = none ∧
           e.content = ArchivedContent.decryptionFailed ∧ e.has_error = true)))
        (Message.get_room_messages st rid 10000) doc.messages) ∧
    ((uploadOk = false ∨ dbOk = false) →
      (Room.get_room (ArchiveService.archive_room A master now uploadOk dbOk
          st rid).2.2 rid).map RoomRow.status = some Status.closed) := by
  have hdoc : (ArchiveService.archive_room A master now uploadOk dbOk st
      rid).2.1 = some
      { room := room,
        participant_ids := (Participant.get_room_participants st rid).map
          (fun p => p.id),
        messages := (Message.get_room_messages st rid 10000).map
          (archiveEntry A key),
        archived_at := now,
        message_count := ((Message.get_room_messages st rid 10000).map
          (archiveEntry A key)).length,
        participant_count := (Participant.get_room_participants st rid).length } := by
    unfold ArchiveService.archive_room
    rw [hroom]
    dsimp only
    rw [henc]
    dsimp only
    rw [hdec]
    dsimp only
    cases uploadOk <;> cases dbOk <;> rfl
  constructor
  · refine ⟨_, hdoc, ?_⟩
    refine forall2_map_self _ _ _ ?_
    intro m _
    unfold archiveEntry
    cases hd : decrypt_message A key m.body_ct m.nonce m.tag with
    | some pt => exact ⟨rfl, rfl, Or.inl ⟨pt, rfl, rfl, rfl⟩⟩
    | none => exact ⟨rfl, rfl, Or.inr ⟨rfl, rfl, rfl⟩⟩
  · intro hfail
    have hst : (ArchiveService.archive_room A master now uploadOk dbOk st
        rid).2.2 = st := by
      unfold ArchiveService.archive_room
      rw [hroom]
      dsimp only
      rw [henc]
      dsimp only
      rw [hdec]
      dsimp only
      rcases hfail with h | h
      · rw [h]
        rfl
      · rw [h]
        cases uploadOk <;> rfl
    rw [hst, hroom, Option.map_some', hclosed]

/-- A closed room for the archival witnesses. -/
def archDemoRoom : RoomRow :=
  { room_id := "Ab12", status := Status.closed, created_at := 0,
    accepted_at := some 1, expires_at := some 2, closed_at := some 3,
    archive_key := none }

/-- A closed room with a stored wrapped key, one well-formed message and one
truncated (undecryptable) message. -/
def archDemoState : DBState :=
  { rooms := [archDemoRoom],
    participants := [],
    room_keys := [("Ab12", List.replicate 44 0)],
    messages :=
      [{ id := 1, room_id := "Ab12", participant_id := 1, created_at := 4,
         body_ct := [1, 2], nonce := List.replicate 12 0,
         tag := List.replicate 16 0, msg_type := "text", ip_address := none },
       { id := 2, room_id := "Ab12", participant_id := 1, created_at := 5,
         body_ct := [], nonce := [], tag := [], msg_type := "text",
         ip_address := none }] }

/-- Witness for C5: with a failing upload, the document is still built (the
truncated message did not abort it) and the room stays `closed`. -/
theorem archive_room_resilience_witness :
    (∃ doc, (ArchiveService.archive_room testAEAD (List.replicate 32 7) 99
        false true archDemoState "Ab12").2.1 = some doc) ∧
    (Room.get_room (ArchiveService.archive_room testAEAD (List.replicate 32 7)
        99 false true archDemoState "Ab12").2.2 "Ab12").map RoomRow.status =
      some Status.closed := by
  have h := archive_room_resilience testAEAD (List.replicate 32 7) 99 false
    true archDemoState "Ab12" archDemoRoom (List.replicate 44 0)
    (List.replicate 16 0) rfl rfl rfl rfl
  obtain ⟨doc, hdoc, -⟩ := h.1
  exact ⟨⟨doc, hdoc⟩, h.2 (Or.inl rfl)⟩

/-- The decrypt results over every persisted message row of the room, in
`created_at` order (the spec-side transcript of P6). -/
def liveTranscript (A : AEAD) (key : List Nat) (st : DBState) (rid : String) :
    List (Option (List Nat)) :=
  (sortByCreated (st.messages.filter (fun m => m.room_id == rid))).map
    (fun m => decrypt_message A key m.body_ct m.nonce m.tag)

/-- Read an archive entry back as a decrypt result: text is `some`, the
sentinel is `none`. -/
def contentToOption : ArchivedContent → Option (List Nat)
  | ArchivedContent.text pt => some pt
  | ArchivedContent.decryptionFailed => none

/-- C6 amended: for a closed room with at most 10000 message rows, the
archive's message list read back as decrypt results equals, entry for entry
in `created_at` order, `decrypt_message` over every persisted row; with more
than 10000 rows the fetch cap truncates the archive. -/
theorem archive_transcript_matches (A : AEAD) (master : List Nat) (now : Nat)
    (uploadOk dbOk : Bool) (st : DBState) (rid : String) (room : RoomRow)
    (enc key : List Nat)
    (hroom : Room.get_room st rid = some room)
    (hclosed : room.status = Status.closed)
    (henc : getRoomKeyEnc st rid = some enc)
    (hdec : decrypt_room_key A master enc = some key)
    (hcount : (st.messages.filter (fun m => m.room_id == rid)).length ≤ 10000) :
    ∃ doc, (ArchiveService.archive_room A master now uploadOk dbOk st
        rid).2.1 = some doc ∧
      doc.messages.map (fun e => contentToOption e.content) =
        liveTranscript A key st rid := by
  have hdoc : (ArchiveService.archive_room A master now uploadOk dbOk st
      rid).2.1 = some
      { room := room,
        participant_ids := (Participant.get_room_participants st rid).map
          (fun p => p.id),
        messages := (Message.get_room_messages st rid 10000).map
          (archiveEntry A key),
        archived_at := now,
        message_count := ((Message.get_room_messages st rid 10000).map
          (archiveEntry A key)).length,
        participant_count := (Participant.get_room_participants st rid).length } := by
    unfold ArchiveService.archive_room
    rw [hroom]
    dsimp only
    rw [henc]
    dsimp only
    rw [hdec]
    dsimp only
    cases uploadOk <;> cases dbOk <;> rfl
  refine ⟨_, hdoc, ?_⟩
  show ((Message.get_room_messages st rid 10000).map (archiveEntry A key)).map
      (fun e => contentToOption e.content) = liveTranscript A key st rid
  unfold Message.get_room_messages liveTranscript
  have htake : (sortByCreated (st.messages.filter
      (fun m => m.room_id == rid))).take 10000 =
      sortByCreated (st.messages.filter (fun m => m.room_id == rid)) := by
    apply List.take_of_length_le
    rw [length_sortByCreated]
    exact hcount
  rw [htake, List.map_map, List.map_map]
  apply List.map_congr_left
  intro m _
  simp only [Function.comp]
  unfold archiveEntry
  cases hd : decrypt_message A key (joinParticipant st m).body_ct
      (joinParticipant st m).nonce (joinParticipant st m).tag with
  | some pt => exact hd.symm
  | none => exact hd.symm

/-- The archive document's message list, for any oracle outcome. -/
theorem archive_room_doc_messages (A : AEAD) (master : List Nat) (now : Nat)
    (uploadOk dbOk : Bool) (st : DBState) (rid : String) (room : RoomRow)
    (enc key : List Nat)
    (hroom : Room.get_room st rid = some room)
    (henc : getRoomKeyEnc st rid = some enc)
    (hdec : decrypt_room_key A master enc = some key) :
    ((ArchiveService.archive_room A master now uploadOk dbOk st rid).2.1).map
      (fun d => d.messages) =
      some ((Message.get_room_messages st rid 10000).map (archiveEntry A key)) := by
  unfold ArchiveService.archive_room
  rw [hroom]
  dsimp only
  rw [henc]
  dsimp only
  rw [hdec]
  dsimp only
  cases uploadOk <;> cases dbOk <;> rfl

/-- The closed room of the oversized-transcript counterexample. -/
def bigRoom : RoomRow :=
  { room_id := "Ab12", status := Status.closed, created_at := 0,
    accepted_at := some 1, expires_at := some 2, closed_at := some 3,
    archive_key := none }

/-- One decryptable message row. -/
def bigMsg : MessageRow :=
  { id := 1, room_id := "Ab12", participant_id := 1, created_at := 5,
    body_ct := [1, 2], nonce := List.replicate 12 0,
    tag := List.replicate 16 0, msg_type := "text", ip_address := none }

/-- A closed room with 10001 persisted messages. -/
def bigState : DBState :=
  { rooms := [bigRoom], participants := [],
    room_keys := [("Ab12", List.replicate 44 0)],
    messages := List.replicate 10001 bigMsg }

/-- Counterexample to C6 as stated: the archive of a closed room with 10001
message rows holds only 10000 entries (the fetch is capped at `limit=10000`),
so it cannot equal the decrypt results over every persisted row. -/
theorem archive_transcript_counterexample :
    (ArchiveService.archive_room testAEAD (List.replicate 32 7) 99 true true
        bigState "Ab12").2.1.map (fun d => d.messages.length) = some 10000 ∧
    (liveTranscript testAEAD (List.replicate 16 0) bigState "Ab12").length
      = 10001 := by
  have hfilter : bigState.messages.filter (fun m => m.room_id == "Ab12") =
      List.replicate 10001 bigMsg := by
    show (List.replicate 10001 bigMsg).filter _ = _
    rw [List.filter_replicate]
    norm_num [bigMsg]
  have hmsgs : Message.get_room_messages bigState "Ab12" 10000 =
      List.replicate 10000 (joinParticipant bigState bigMsg) := by
    unfold Message.get_room_messages
    rw [hfilter, sortByCreated_replicate, List.take_replicate,
      List.map_replicate]
    norm_num
  have h := archive_room_doc_messages testAEAD (List.replicate 32 7) 99 true
    true bigState "Ab12" bigRoom (List.replicate 44 0) (List.replicate 16 0)
    rfl rfl rfl
  constructor
  · cases ho : (ArchiveService.archive_room testAEAD (List.replicate 32 7) 99
        true true bigState "Ab12").2.1 with
    | none =>
      rw [ho] at h
      exact absurd h (by simp)
    | some d =>
      rw [ho] at h
      rw [Option.map_some'] at h ⊢
      have hd : d.messages = (Message.get_room_messages bigState "Ab12"
          10000).map (archiveEntry testAEAD (List.replicate 16 0)) := by
        simpa using h
      rw [hd, hmsgs, List.map_replicate, List.length_replicate]
  · unfold liveTranscript
    rw [hfilter, sortByCreated_replicate, List.length_map,
      List.length_replicate]

/-- Witness for the amended C6 at the two-message closed room. -/
theorem archive_transcript_matches_witness :
    ∃ doc, (ArchiveService.archive_room testAEAD (List.replicate 32 7) 99
        true true archDemoState "Ab12").2.1 = some doc ∧
      doc.messages.map (fun e => contentToOption e.content) =
        liveTranscript testAEAD (List.replicate 16 0) archDemoState "Ab12" :=
  archive_transcript_matches testAEAD (List.replicate 32 7) 99 true true
    archDemoState "Ab12" archDemoRoom (List.replicate 44 0)
    (List.replicate 16 0) rfl rfl rfl rfl (by decide)

/-!  ## `POST /rooms` (`routes/rooms.py`, `create_room`) and
`Room.create_room` (`models/rooms.py`).

`models/rooms.py` declares `def create_room() -> Dict` with no parameters,
while the route calls `Room.create_room(room_id=room_id)`. Under Python's
calling convention an unexpected keyword argument raises `TypeError` before
the body runs; the route's `except Exception` turns that into a 500. -/

/-- A Python exception, as far as the route can observe it. -/
inductive PyErr where
  | typeError
  | runtimeError (msg : String)
deriving DecidableEq, Repr

/-- The declared parameter names of `Room.create_room`: none. -/
def createRoomParams : List String := []

/-- The retry loop of `Room.create_room`: up to `attempts` candidate ids from
the RNG stream `gen`; a duplicate-key insert continues with the next
candidate; a fresh id inserts a pending room; exhausting the attempts raises. -/
def createRoomAttempts (gen : Nat → String) (now : Nat) (st : DBState) :
    Nat → Nat → Except PyErr (RoomRow × DBState)
  | 0, _ => Except.error (PyErr.runtimeError
      "Failed to generate unique room ID after multiple attempts")
  | k + 1, i =>
    let rid := gen i
    if st.rooms.any (fun r => r.room_id == rid) then
      createRoomAttempts gen now st k (i + 1)
    else
      let row : RoomRow :=
        { room_id := rid, status := Status.pending, created_at := now,
          accepted_at := none, expires_at := none, closed_at := none,
          archive_key := none }
      Except.ok (row, { st with rooms := st.rooms ++ [row] })

/-- `Room.create_room` body, `max_attempts = 10`. -/
def Room.create_room (gen : Nat → String) (now : Nat) (st : DBState) :
    Except PyErr (RoomRow × DBState) :=
  createRoomAttempts gen now st 10 0

/-- CPython keyword binding for a call to `Room.create_room`: a keyword not
among the declared parameters raises `TypeError` before the body runs. -/
def callCreateRoomKw (kwargs : List String) (gen : Nat → String) (now : Nat)
    (st : DBState) : Except PyErr (RoomRow × DBState) :=
  if kwargs.all (fun k => createRoomParams.contains k) then
    Room.create_room gen now st
  else Except.error PyErr.typeError

/-- The JSON response of the create endpoint. -/
structure CreateResp where
  code : Nat
  room_id : Option String
  status_field : Option Status
deriving DecidableEq, Repr

/-- The create endpoint: it always calls `Room.create_room(room_id=...)`
(passing the body's `room_id`, `None` when absent); any exception is caught
and answered 500. -/
def create_room_route (body_room_id : Option String) (gen : Nat → String)
    (now : Nat) (st : DBState) : CreateResp × DBState :=
  match body_room_id, callCreateRoomKw ["room_id"] gen now st with
  | _, Except.ok (row, st') =>
    ({ code := 201, room_id := some row.room_id,
       status_field := some Status.pending }, st')
  | _, Except.error _ =>
    ({ code := 500, room_id := none, status_field := none }, st)

/-- C4 (code bug): every `POST /rooms` — with or without a preferred id —
answers 500 and creates nothing, because the route passes the `room_id`
keyword to a `Room.create_room` that declares no parameters. -/
theorem create_room_route_always_500 (body_room_id : Option String)
    (gen : Nat → String) (now : Nat) (st : DBState) :
    (create_room_route body_room_id gen now st).1.code = 500 ∧
    (create_room_route body_room_id gen now st).2 = st := by
  constructor
  · rfl
  · rfl
